import Mathlib

/-!
Verification of the puzzle-gated RSVP core of `puzzle2rsvp`.

The repository consists of a planning document (`TODO.md` + `PLAN.md`,
here `src/unnamed/part_000`) whose embedded code snippets define the
Express route handlers, and a minimal health-check server
(`src/server/index.js`).  The route handlers
`POST /api/puzzle/:slug/verify`, `POST /api/rsvp/:token` and
`GET /api/invite/:token` are embedded below from the snippets of
`part_000`.  The database helpers (`server/db.js`: `getInvite`,
`markSolved`, `upsertRsvp`) are not implemented in the repository; they
are modelled from the spec's Invite Store contract (spec §4.1) and the
SQL schema given in the plan.
-/

namespace PuzzleRsvp

/-- Opaque RSVP payload: a JSON blob stored verbatim as TEXT
(`rsvp_data TEXT` in the plan's schema); the core never interprets it. -/
abbrev Payload := String

/-- One row of the `invites` table, per the schema in the plan:
`token` (primary key), `event_slug`, `guest_name`,
`puzzle_solved INTEGER DEFAULT 0` (modelled as `Bool`),
`rsvp_status TEXT DEFAULT NULL` (`none` = no response),
`rsvp_data TEXT DEFAULT NULL`, and the three timestamps
(times modelled as `Nat`). -/
structure Invite where
  token : String
  event_slug : String
  guest_name : String
  puzzle_solved : Bool
  rsvp_status : Option String
  rsvp_data : Option Payload
  created_at : Nat
  solved_at : Option Nat
  rsvp_at : Option Nat
deriving Repr, DecidableEq

/-- The invites table: a list of rows (token is the primary key). -/
abbrev Store := List Invite

/-- Modelled from the spec: `server/db.js` is not implemented.
`getInvite(token)` — spec §4.1 `get(token) → Invite | NotFound`:
look up the row whose primary-key `token` matches. -/
def getInvite (store : Store) (token : String) : Option Invite :=
  store.find? (fun i => i.token == token)

/-- Modelled from the spec: `server/db.js` is not implemented.
`markSolved(token)` — spec §4.1: sets `puzzle_solved = true` and
`solved_at = now` only if not already solved; idempotent (a no-op on an
already-solved token). -/
def markSolved (now : Nat) (store : Store) (token : String) : Store :=
  store.map (fun i =>
    if i.token = token ∧ i.puzzle_solved = false then
      { i with puzzle_solved := true, solved_at := some now }
    else i)

/-- Modelled from the spec: `server/db.js` is not implemented.
`upsertRsvp(token, payload)` — spec §4.1: overwrites `rsvp_data` and
sets `rsvp_status` (derived from the payload, via the derivation
function `derive` which the core does not fix) and `rsvp_at = now`;
a full overwrite, never a merge. -/
def upsertRsvp (derive : Payload → String) (now : Nat) (store : Store)
    (token : String) (payload : Payload) : Store :=
  store.map (fun i =>
    if i.token = token then
      { i with rsvp_data := some payload,
               rsvp_status := some (derive payload),
               rsvp_at := some now }
    else i)

/-- Response of the puzzle-verify route: either `res.json({ solved })`
or `res.status(s).json({ error: msg })`. -/
inductive VerifyResult where
  | ok (solved : Bool)
  | err (status : Nat) (msg : String)
deriving Repr, DecidableEq

/-- Outcome of running the verify handler: a response was sent, or the
handler threw (the JS snippet has no try/catch, so a throwing verifier
escapes the handler).  Both carry the store as it stands afterwards. -/
inductive HandlerOutcome where
  | responded (r : VerifyResult) (store : Store)
  | threw (e : String) (store : Store)
deriving Repr, DecidableEq

/-- The store a handler run leaves behind, whether it responded or threw. -/
def outcomeStore : HandlerOutcome → Store
  | .responded _ s => s
  | .threw _ s => s

/-- The `POST /api/puzzle/:slug/verify` handler (part_000 lines 319-336):

```js
const invite = db.getInvite(token);
if (!invite || invite.event_slug !== slug) return res.status(404).json({ error: "Invalid invite" });
if (invite.puzzle_solved) return res.json({ solved: true }); // idempotent
const verifier = verifiers[slug];
if (!verifier) return res.status(404).json({ error: "Unknown event" });
const solved = verifier(submission);
if (solved) db.markSolved(token);
return res.json({ solved });
```

A verifier is a function `σ → Except String Bool`; `.error e` models a
JS verifier that throws `e` instead of returning a boolean.  There is
no try/catch in the handler, so that throw propagates (`.threw`). -/
def attemptSolve {σ : Type} (reg : String → Option (σ → Except String Bool))
    (now : Nat) (slug token : String) (submission : σ)
    (store : Store) : HandlerOutcome :=
  match getInvite store token with
  | none => .responded (.err 404 "Invalid invite") store
  | some invite =>
    if invite.event_slug ≠ slug then .responded (.err 404 "Invalid invite") store
    else if invite.puzzle_solved then .responded (.ok true) store
    else
      match reg slug with
      | none => .responded (.err 404 "Unknown event") store
      | some verifier =>
        match verifier submission with
        | .error e => .threw e store
        | .ok solved =>
          if solved then .responded (.ok true) (markSolved now store token)
          else .responded (.ok false) store

/-- Response of the RSVP route: `res.json({ success: true })` or
`res.status(s).json({ error: msg })`. -/
inductive RsvpResult where
  | success
  | err (status : Nat) (msg : String)
deriving Repr, DecidableEq

/-- The `POST /api/rsvp/:token` handler (part_000 lines 344-351):

```js
const invite = db.getInvite(req.params.token);
if (!invite) return res.status(404).json({ error: "Invalid invite" });
if (!invite.puzzle_solved) return res.status(403).json({ error: "Puzzle not yet solved" });
db.upsertRsvp(invite.token, req.body);
return res.json({ success: true });
``` -/
def submitRsvp (derive : Payload → String) (now : Nat) (token : String)
    (payload : Payload) (store : Store) : RsvpResult × Store :=
  match getInvite store token with
  | none => (.err 404 "Invalid invite", store)
  | some invite =>
    if !invite.puzzle_solved then (.err 403 "Puzzle not yet solved", store)
    else (.success, upsertRsvp derive now store invite.token payload)

/-- The projection `GET /api/invite/:token` returns: only these four
fields, nothing else. -/
structure InviteView where
  guest_name : String
  event_slug : String
  puzzle_solved : Bool
  has_rsvp : Bool
deriving Repr, DecidableEq

/-- Response of the invite-state route. -/
inductive InviteStateResult where
  | ok (view : InviteView)
  | err (status : Nat) (msg : String)
deriving Repr, DecidableEq

/-- The `GET /api/invite/:token` handler (part_000 lines 365-376):

```js
const invite = db.getInvite(req.params.token);
if (!invite) return res.status(404).json({ error: "Invalid invite" });
return res.json({
  guest_name: invite.guest_name,
  event_slug: invite.event_slug,
  puzzle_solved: !!invite.puzzle_solved,
  has_rsvp: invite.rsvp_status !== null, // boolean only — no PII leaked
});
``` -/
def getInviteState (store : Store) (token : String) : InviteStateResult :=
  match getInvite store token with
  | none => .err 404 "Invalid invite"
  | some invite =>
    .ok ⟨invite.guest_name, invite.event_slug, invite.puzzle_solved,
         invite.rsvp_status.isSome⟩

/-- A puzzle submission as the example verifier reads it: a JSON body
whose `answer` field may be a string or absent/null/undefined (`none`). -/
structure Submission where
  answer : Option String
deriving Repr, DecidableEq

/-- Model of the JS `String.prototype.trim()`: strip whitespace from
both ends of the string. -/
def jsTrim (s : String) : String :=
  ⟨((s.data.dropWhile Char.isWhitespace).reverse.dropWhile
      Char.isWhitespace).reverse⟩

/-- Model of the JS `String.prototype.toLowerCase()`: lower-case every
character. -/
def jsToLowerCase (s : String) : String :=
  ⟨s.data.map Char.toLower⟩

/-- The example event verifier (part_000 lines 290-295):

```js
export function verify(submission) {
  const normalized = submission.answer?.trim().toLowerCase();
  return normalized === "the stars align at midnight";
}
```

Optional chaining: an absent `answer` makes `normalized` undefined, and
`undefined === <string>` is `false`. -/
def verify (submission : Submission) : Bool :=
  submission.answer.map (fun a => jsToLowerCase (jsTrim a))
    == some "the stars align at midnight"

/-- The barrel file `server/verifiers/index.js` (part_000 lines 300-305)
maps the example slug to the example verifier; a verifier that returns
normally is wrapped as `Except.ok`. -/
def verifiers (slug : String) : Option (Submission → Except String Bool) :=
  if slug = "dinner-party-march-2026" then some (fun s => Except.ok (verify s))
  else none

/-- A guest-facing mutating operation of the core: a puzzle-verify
request or an RSVP submission. -/
inductive Op (σ : Type) where
  | solve (slug token : String) (submission : σ)
  | rsvp (token : String) (payload : Payload)

/-- An operation together with the ambient context it runs in: the
verifier registry, the status-derivation function and the clock. -/
structure OpCtx (σ : Type) where
  reg : String → Option (σ → Except String Bool)
  derive : Payload → String
  now : Nat
  op : Op σ

/-- Effect of one operation on the store. -/
def step {σ : Type} (c : OpCtx σ) (store : Store) : Store :=
  match c.op with
  | .solve slug token sub => outcomeStore (attemptSolve c.reg c.now slug token sub store)
  | .rsvp token payload => (submitRsvp c.derive c.now token payload store).2

/-- Effect of a sequence of operations on the store. -/
def runOps {σ : Type} (ops : List (OpCtx σ)) (store : Store) : Store :=
  ops.foldl (fun s c => step c s) store

/-- The latch observation: token `t` is present, solved, and its
`solved_at` equals `sAt`. -/
def latchHolds (store : Store) (t : String) (sAt : Option Nat) : Bool :=
  match getInvite store t with
  | none => false
  | some j => j.puzzle_solved && j.solved_at == sAt

/-! ### Store lemmas -/

theorem getInvite_map (f : Invite → Invite) (hf : ∀ i, (f i).token = i.token)
    (store : Store) (t : String) :
    getInvite (store.map f) t = (getInvite store t).map f := by
  unfold getInvite
  rw [List.find?_map]
  have hp : ((fun i : Invite => i.token == t) ∘ f)
      = (fun i : Invite => i.token == t) := by
    funext i
    simp [Function.comp, hf i]
  rw [hp]

theorem getInvite_token {store : Store} {t : String} {inv : Invite}
    (h : getInvite store t = some inv) : inv.token = t := by
  have := List.find?_some h
  simpa using this

theorem markSolved_token (now : Nat) (token : String) (i : Invite) :
    (if i.token = token ∧ i.puzzle_solved = false then
      { i with puzzle_solved := true, solved_at := some now }
     else i).token = i.token := by
  split <;> rfl

theorem getInvite_markSolved (now : Nat) (store : Store) (token t : String) :
    getInvite (markSolved now store token) t
      = (getInvite store t).map (fun i =>
          if i.token = token ∧ i.puzzle_solved = false then
            { i with puzzle_solved := true, solved_at := some now }
          else i) := by
  unfold markSolved
  exact getInvite_map _ (markSolved_token now token) store t

theorem getInvite_upsertRsvp (derive : Payload → String) (now : Nat)
    (store : Store) (token t : String) (p : Payload) :
    getInvite (upsertRsvp derive now store token p) t
      = (getInvite store t).map (fun i =>
          if i.token = token then
            { i with rsvp_data := some p, rsvp_status := some (derive p),
                     rsvp_at := some now }
          else i) := by
  unfold upsertRsvp
  refine getInvite_map _ (fun i => ?_) store t
  split <;> rfl

/-- On an already-solved invite, `markSolved` (with any target token)
leaves the row unchanged. -/
theorem getInvite_markSolved_of_solved {store : Store} {t : String} {inv : Invite}
    (h : getInvite store t = some inv) (hs : inv.puzzle_solved = true)
    (now : Nat) (token : String) :
    getInvite (markSolved now store token) t = some inv := by
  rw [getInvite_markSolved, h]
  simp [hs]

/-- First solve: `markSolved` on an unsolved invite's own token sets the
latch and the `solved_at` timestamp. -/
theorem getInvite_markSolved_self {store : Store} {t : String} {inv : Invite}
    (h : getInvite store t = some inv) (hu : inv.puzzle_solved = false)
    (now : Nat) :
    getInvite (markSolved now store t) t
      = some { inv with puzzle_solved := true, solved_at := some now } := by
  rw [getInvite_markSolved, h]
  simp [getInvite_token h, hu]

/-- `upsertRsvp` never touches `puzzle_solved` or `solved_at`. -/
theorem getInvite_upsertRsvp_frame {store : Store} {t : String} {inv : Invite}
    (h : getInvite store t = some inv) (derive : Payload → String)
    (now : Nat) (token : String) (p : Payload) :
    ∃ inv', getInvite (upsertRsvp derive now store token p) t = some inv'
      ∧ inv'.puzzle_solved = inv.puzzle_solved
      ∧ inv'.solved_at = inv.solved_at := by
  rw [getInvite_upsertRsvp, h]
  refine ⟨_, rfl, ?_, ?_⟩ <;> by_cases hc : inv.token = token <;> simp [hc]

/-- The verify handler leaves the store unchanged or applies exactly one
`markSolved` on the request token. -/
theorem attemptSolve_store {σ : Type} (reg : String → Option (σ → Except String Bool))
    (now : Nat) (slug token : String) (sub : σ) (store : Store) :
    outcomeStore (attemptSolve reg now slug token sub store) = store
    ∨ outcomeStore (attemptSolve reg now slug token sub store)
        = markSolved now store token := by
  unfold attemptSolve
  cases h : getInvite store token with
  | none => exact Or.inl rfl
  | some invite =>
    dsimp only
    by_cases h1 : invite.event_slug ≠ slug
    · rw [if_pos h1]; exact Or.inl rfl
    · rw [if_neg h1]
      by_cases h2 : invite.puzzle_solved = true
      · rw [if_pos h2]; exact Or.inl rfl
      · rw [if_neg h2]
        cases reg slug with
        | none => exact Or.inl rfl
        | some verifier =>
          dsimp only
          cases verifier sub with
          | error e => exact Or.inl rfl
          | ok solved =>
            dsimp only
            by_cases h3 : solved = true
            · rw [if_pos h3]; exact Or.inr rfl
            · rw [if_neg h3]; exact Or.inl rfl

/-- The RSVP handler leaves the store unchanged or applies exactly one
`upsertRsvp`. -/
theorem submitRsvp_store (derive : Payload → String) (now : Nat)
    (token : String) (p : Payload) (store : Store) :
    (submitRsvp derive now token p store).2 = store
    ∨ ∃ inv, getInvite store token = some inv
        ∧ (submitRsvp derive now token p store).2
            = upsertRsvp derive now store inv.token p := by
  unfold submitRsvp
  cases h : getInvite store token with
  | none => exact Or.inl rfl
  | some invite =>
    dsimp only
    cases h1 : invite.puzzle_solved with
    | false =>
      rw [if_pos (by simp [h1])]
      exact Or.inl rfl
    | true =>
      rw [if_neg (by simp [h1])]
      exact Or.inr ⟨invite, rfl, rfl⟩

/-- One operation preserves the latch observation. -/
theorem step_latch {σ : Type} (c : OpCtx σ) (store : Store) (t : String)
    (sAt : Option Nat) (h : latchHolds store t sAt = true) :
    latchHolds (step c store) t sAt = true := by
  unfold latchHolds at h
  cases hg : getInvite store t with
  | none => rw [hg] at h; exact absurd h (by simp)
  | some j =>
    rw [hg] at h
    have hj : j.puzzle_solved = true ∧ j.solved_at = sAt := by
      simpa using h
    unfold step
    cases hop : c.op with
    | solve slug token sub =>
      dsimp only
      rcases attemptSolve_store c.reg c.now slug token sub store with hs | hs
      · rw [hs]; unfold latchHolds; rw [hg]; simpa using hj
      · rw [hs]
        unfold latchHolds
        rw [getInvite_markSolved_of_solved hg hj.1]
        simpa using hj
    | rsvp token payload =>
      dsimp only
      rcases submitRsvp_store c.derive c.now token payload store with hs | hs
      · rw [hs]; unfold latchHolds; rw [hg]; simpa using hj
      · obtain ⟨inv, _, hs⟩ := hs
        rw [hs]
        obtain ⟨j', hj', hps, hsa⟩ :=
          getInvite_upsertRsvp_frame hg c.derive c.now inv.token payload
        unfold latchHolds
        rw [hj']
        simp [hps, hsa, hj.1, hj.2]

/-- Any sequence of operations preserves the latch observation. -/
theorem runOps_latch {σ : Type} (ops : List (OpCtx σ)) (store : Store)
    (t : String) (sAt : Option Nat) (h : latchHolds store t sAt = true) :
    latchHolds (runOps ops store) t sAt = true := by
  induction ops generalizing store with
  | nil => exact h
  | cons c cs ih => exact ih (step c store) (step_latch c store t sAt h)

/-! ### Branch characterizations of the handlers -/

theorem attemptSolve_absent {σ : Type} {store : Store} {t : String}
    (reg : String → Option (σ → Except String Bool)) (now : Nat)
    (slug : String) (sub : σ) (h : getInvite store t = none) :
    attemptSolve reg now slug t sub store
      = .responded (.err 404 "Invalid invite") store := by
  unfold attemptSolve
  rw [h]

theorem attemptSolve_mismatch {σ : Type} {store : Store} {t : String} {inv : Invite}
    (reg : String → Option (σ → Except String Bool)) (now : Nat)
    {slug : String} (sub : σ) (h : getInvite store t = some inv)
    (hm : inv.event_slug ≠ slug) :
    attemptSolve reg now slug t sub store
      = .responded (.err 404 "Invalid invite") store := by
  unfold attemptSolve
  rw [h]
  dsimp only
  rw [if_pos hm]

theorem attemptSolve_already_solved {σ : Type} {store : Store} {t : String}
    {inv : Invite} (reg : String → Option (σ → Except String Bool)) (now : Nat)
    {slug : String} (sub : σ) (h : getInvite store t = some inv)
    (hm : inv.event_slug = slug) (hs : inv.puzzle_solved = true) :
    attemptSolve reg now slug t sub store = .responded (.ok true) store := by
  unfold attemptSolve
  rw [h]
  dsimp only
  rw [if_neg (by simp [hm]), if_pos hs]

theorem attemptSolve_no_verifier {σ : Type} {store : Store} {t : String}
    {inv : Invite} {reg : String → Option (σ → Except String Bool)} (now : Nat)
    {slug : String} (sub : σ) (h : getInvite store t = some inv)
    (hm : inv.event_slug = slug) (hu : inv.puzzle_solved = false)
    (hr : reg slug = none) :
    attemptSolve reg now slug t sub store
      = .responded (.err 404 "Unknown event") store := by
  unfold attemptSolve
  rw [h]
  dsimp only
  rw [if_neg (by simp [hm]), if_neg (by simp [hu]), hr]

theorem attemptSolve_throws {σ : Type} {store : Store} {t : String}
    {inv : Invite} {reg : String → Option (σ → Except String Bool)} (now : Nat)
    {slug : String} {sub : σ} {v : σ → Except String Bool} {e : String}
    (h : getInvite store t = some inv) (hm : inv.event_slug = slug)
    (hu : inv.puzzle_solved = false) (hr : reg slug = some v)
    (hc : v sub = .error e) :
    attemptSolve reg now slug t sub store = .threw e store := by
  unfold attemptSolve
  rw [h]
  dsimp only
  rw [if_neg (by simp [hm]), if_neg (by simp [hu]), hr]
  dsimp only
  rw [hc]

theorem attemptSolve_accept {σ : Type} {store : Store} {t : String}
    {inv : Invite} {reg : String → Option (σ → Except String Bool)} (now : Nat)
    {slug : String} {sub : σ} {v : σ → Except String Bool}
    (h : getInvite store t = some inv) (hm : inv.event_slug = slug)
    (hu : inv.puzzle_solved = false) (hr : reg slug = some v)
    (hc : v sub = .ok true) :
    attemptSolve reg now slug t sub store
      = .responded (.ok true) (markSolved now store t) := by
  unfold attemptSolve
  rw [h]
  dsimp only
  rw [if_neg (by simp [hm]), if_neg (by simp [hu]), hr]
  dsimp only
  rw [hc]
  dsimp only
  rw [if_pos rfl]

theorem attemptSolve_reject {σ : Type} {store : Store} {t : String}
    {inv : Invite} {reg : String → Option (σ → Except String Bool)} (now : Nat)
    {slug : String} {sub : σ} {v : σ → Except String Bool}
    (h : getInvite store t = some inv) (hm : inv.event_slug = slug)
    (hu : inv.puzzle_solved = false) (hr : reg slug = some v)
    (hc : v sub = .ok false) :
    attemptSolve reg now slug t sub store = .responded (.ok false) store := by
  unfold attemptSolve
  rw [h]
  dsimp only
  rw [if_neg (by simp [hm]), if_neg (by simp [hu]), hr]
  dsimp only
  rw [hc]
  dsimp only
  rw [if_neg (by simp)]

theorem submitRsvp_absent {store : Store} {t : String}
    (derive : Payload → String) (now : Nat) (p : Payload)
    (h : getInvite store t = none) :
    submitRsvp derive now t p store = (.err 404 "Invalid invite", store) := by
  unfold submitRsvp
  rw [h]

theorem submitRsvp_unsolved {store : Store} {t : String} {inv : Invite}
    (derive : Payload → String) (now : Nat) (p : Payload)
    (h : getInvite store t = some inv) (hu : inv.puzzle_solved = false) :
    submitRsvp derive now t p store = (.err 403 "Puzzle not yet solved", store) := by
  unfold submitRsvp
  rw [h]
  dsimp only
  rw [if_pos (by simp [hu])]

theorem submitRsvp_solved {store : Store} {t : String} {inv : Invite}
    (derive : Payload → String) (now : Nat) (p : Payload)
    (h : getInvite store t = some inv) (hs : inv.puzzle_solved = true) :
    submitRsvp derive now t p store
      = (.success, upsertRsvp derive now store inv.token p) := by
  unfold submitRsvp
  rw [h]
  dsimp only
  rw [if_neg (by simp [hs])]

/-! ### Concrete fixtures used by the witness theorems -/

/-- A solved invite for token `t1` of event `e1`, with `solved_at = 3`. -/
def invSolved : Invite := ⟨"t1", "e1", "G", true, none, none, 0, some 3, none⟩

/-- An unsolved invite for token `t1` of event `e1`. -/
def invUnsolved : Invite := ⟨"t1", "e1", "G", false, none, none, 0, none, none⟩

/-- A registry whose `e1` verifier accepts everything. -/
def regAccept : String → Option (Submission → Except String Bool) :=
  fun s => if s = "e1" then some (fun _ => Except.ok true) else none

/-- A registry whose `e1` verifier rejects everything. -/
def regReject : String → Option (Submission → Except String Bool) :=
  fun s => if s = "e1" then some (fun _ => Except.ok false) else none

/-- A registry whose `e1` verifier throws. -/
def regThrow : String → Option (Submission → Except String Bool) :=
  fun s => if s = "e1" then some (fun _ => Except.error "boom") else none

/-- A registry with no verifier at all. -/
def regEmpty : String → Option (Submission → Except String Bool) :=
  fun _ => none

/-- A fixed status derivation for the witnesses. -/
def deriveConst : Payload → String := fun _ => "accepted"

/-! ### Claims -/

/-- C1: for every invite token, `puzzle_solved` is a one-way latch.  If the
invite is already solved, `attemptSolve` (with the invite's own event slug,
any registry, any submission) returns `{solved: true}` with the store
untouched — the result does not depend on the registry at all, so the
verifier is not invoked — and after any sequence of further operations the
invite is still present, still solved, and `solved_at` is unchanged.  If
the invite is unsolved and the verifier accepts, the resulting store has
`puzzle_solved = true` and `solved_at` set to the time of that first
successful solve (so `solved_at` is set exactly once: on the first success,
and never modified afterwards). -/
theorem c1_puzzle_solved_latch {σ : Type}
    (reg : String → Option (σ → Except String Bool)) (now : Nat) (sub : σ)
    (store : Store) (t : String) (inv : Invite) (ops : List (OpCtx σ))
    (hfind : getInvite store t = some inv) :
    (inv.puzzle_solved = true →
      attemptSolve reg now inv.event_slug t sub store
          = .responded (.ok true) store
        ∧ latchHolds (runOps ops store) t inv.solved_at = true)
    ∧ (inv.puzzle_solved = false →
        ∀ v, reg inv.event_slug = some v → v sub = Except.ok true →
          getInvite (outcomeStore (attemptSolve reg now inv.event_slug t sub store)) t
            = some { inv with puzzle_solved := true, solved_at := some now }) := by
  constructor
  · intro hs
    refine ⟨attemptSolve_already_solved reg now sub hfind rfl hs, ?_⟩
    apply runOps_latch
    unfold latchHolds
    rw [hfind]
    simp [hs]
  · intro hu v hv hacc
    rw [attemptSolve_accept now hfind rfl hu hv hacc]
    exact getInvite_markSolved_self hfind hu now

/-- Witness for C1: a concrete solved invite short-circuits to
`{solved: true}` and survives an RSVP write with its latch and
`solved_at` intact; a concrete unsolved invite gets `solved_at := 5` on
its first accepted solve. -/
theorem c1_witness :
    (attemptSolve regAccept 5 "e1" "t1" ⟨none⟩ [invSolved]
        = .responded (.ok true) [invSolved]
      ∧ latchHolds
          (runOps [⟨regAccept, deriveConst, 9, .rsvp "t1" "pay"⟩] [invSolved])
          "t1" (some 3) = true)
    ∧ getInvite
        (outcomeStore (attemptSolve regAccept 5 "e1" "t1" ⟨none⟩ [invUnsolved]))
        "t1" = some ⟨"t1", "e1", "G", true, none, none, 0, some 5, none⟩ := by
  constructor
  · exact (c1_puzzle_solved_latch regAccept 5 ⟨none⟩ [invSolved] "t1" invSolved
      [⟨regAccept, deriveConst, 9, .rsvp "t1" "pay"⟩] (by decide)).1 (by decide)
  · exact (c1_puzzle_solved_latch regAccept 5 ⟨none⟩ [invUnsolved] "t1" invUnsolved
      [] (by decide)).2 (by decide) (fun _ => Except.ok true) rfl rfl

/-- C2: `submitRsvp` fails with `NotFound` (404 "Invalid invite") when the
token is absent, fails with `Forbidden` (403 "Puzzle not yet solved") when
the invite exists but is unsolved — for every payload, and with the store
untouched in both cases, so no RSVP data is ever written for an unsolved
token — and otherwise succeeds by calling the store's `upsertRsvp`. -/
theorem c2_rsvp_gate (derive : Payload → String) (now : Nat)
    (t : String) (p : Payload) (store : Store) :
    (getInvite store t = none →
      submitRsvp derive now t p store = (.err 404 "Invalid invite", store))
    ∧ (∀ inv, getInvite store t = some inv → inv.puzzle_solved = false →
        submitRsvp derive now t p store = (.err 403 "Puzzle not yet solved", store))
    ∧ (∀ inv, getInvite store t = some inv → inv.puzzle_solved = true →
        submitRsvp derive now t p store
          = (.success, upsertRsvp derive now store inv.token p)) :=
  ⟨fun h => submitRsvp_absent derive now p h,
   fun _ h hu => submitRsvp_unsolved derive now p h hu,
   fun _ h hs => submitRsvp_solved derive now p h hs⟩

/-- Witness for C2: the three branches on concrete stores — empty store,
an unsolved invite, and a solved invite. -/
theorem c2_witness :
    submitRsvp deriveConst 7 "t9" "pay" [] = (.err 404 "Invalid invite", [])
    ∧ submitRsvp deriveConst 7 "t1" "pay" [invUnsolved]
        = (.err 403 "Puzzle not yet solved", [invUnsolved])
    ∧ submitRsvp deriveConst 7 "t1" "pay" [invSolved]
        = (.success, upsertRsvp deriveConst 7 [invSolved] "t1" "pay") :=
  ⟨(c2_rsvp_gate deriveConst 7 "t9" "pay" []).1 (by decide),
   (c2_rsvp_gate deriveConst 7 "t1" "pay" [invUnsolved]).2.1 invUnsolved
     (by decide) rfl,
   (c2_rsvp_gate deriveConst 7 "t1" "pay" [invSolved]).2.2 invSolved
     (by decide) rfl⟩

/-- C3: an `attemptSolve` whose verifier rejects the submission returns
`{solved: false}` and returns the very same store — `puzzle_solved`,
`solved_at` and every other field are exactly as before.  Moreover every
`attemptSolve` run either leaves the store untouched or performs the
single `markSolved` transition, and the latter only when the invite was
unsolved and the response is `{solved: true}`. -/
theorem c3_failing_attempt_frame {σ : Type}
    (reg : String → Option (σ → Except String Bool)) (now : Nat)
    (slug t : String) (sub : σ) (store : Store) (inv : Invite)
    (hfind : getInvite store t = some inv) (hslug : inv.event_slug = slug) :
    (∀ v, inv.puzzle_solved = false → reg slug = some v →
      v sub = Except.ok false →
      attemptSolve reg now slug t sub store = .responded (.ok false) store)
    ∧ (∀ r s, attemptSolve reg now slug t sub store = .responded r s →
        s = store
        ∨ (inv.puzzle_solved = false ∧ r = .ok true
            ∧ s = markSolved now store t)) := by
  constructor
  · intro v hu hv hc
    exact attemptSolve_reject now hfind hslug hu hv hc
  · intro r s heq
    by_cases hs : inv.puzzle_solved = true
    · rw [attemptSolve_already_solved reg now sub hfind hslug hs] at heq
      injection heq with _ h2
      exact Or.inl h2.symm
    · have hu : inv.puzzle_solved = false := by simpa using hs
      cases hr : reg slug with
      | none =>
        rw [attemptSolve_no_verifier now sub hfind hslug hu hr] at heq
        injection heq with _ h2
        exact Or.inl h2.symm
      | some v =>
        cases hc : v sub with
        | error e =>
          rw [attemptSolve_throws now hfind hslug hu hr hc] at heq
          exact absurd heq (by simp)
        | ok solved =>
          cases solved with
          | true =>
            rw [attemptSolve_accept now hfind hslug hu hr hc] at heq
            injection heq with h1 h2
            exact Or.inr ⟨hu, h1.symm, h2.symm⟩
          | false =>
            rw [attemptSolve_reject now hfind hslug hu hr hc] at heq
            injection heq with _ h2
            exact Or.inl h2.symm

/-- Witness for C3: a concrete rejected attempt answers `{solved: false}`
and hands back the original one-row store; the frame disjunction applied
to that run picks the unchanged-store case. -/
theorem c3_witness :
    attemptSolve regReject 7 "e1" "t1" ⟨some "x"⟩ [invUnsolved]
        = .responded (.ok false) [invUnsolved]
    ∧ ([invUnsolved] = [invUnsolved]
        ∨ (invUnsolved.puzzle_solved = false
            ∧ VerifyResult.ok false = VerifyResult.ok true
            ∧ [invUnsolved] = markSolved 7 [invUnsolved] "t1")) := by
  have h := c3_failing_attempt_frame regReject 7 "e1" "t1" ⟨some "x"⟩
    [invUnsolved] invUnsolved (by decide) rfl
  have h1 := h.1 (fun _ => Except.ok false) rfl rfl rfl
  exact ⟨h1, h.2 (.ok false) [invUnsolved] h1⟩

/-- C4: an absent token and a token bound to a different event produce the
very same `NotFound` response — status 404, body "Invalid invite" — and in
the mismatched-event case the store comes back untouched. -/
theorem c4_notfound_uniform {σ : Type}
    (reg : String → Option (σ → Except String Bool)) (now : Nat)
    (slug : String) (sub : σ) (s1 s2 : Store) (t1 t2 : String) (inv2 : Invite)
    (habsent : getInvite s1 t1 = none)
    (hfind : getInvite s2 t2 = some inv2) (hmis : inv2.event_slug ≠ slug) :
    attemptSolve reg now slug t1 sub s1
        = .responded (.err 404 "Invalid invite") s1
    ∧ attemptSolve reg now slug t2 sub s2
        = .responded (.err 404 "Invalid invite") s2 :=
  ⟨attemptSolve_absent reg now slug sub habsent,
   attemptSolve_mismatch reg now sub hfind hmis⟩

/-- Witness for C4: an unknown token against an empty store and a real
`e1` token attacked through event `e2` yield the identical error. -/
theorem c4_witness :
    attemptSolve regAccept 0 "e2" "t9" ⟨none⟩ []
        = .responded (.err 404 "Invalid invite") []
    ∧ attemptSolve regAccept 0 "e2" "t1" ⟨none⟩ [invUnsolved]
        = .responded (.err 404 "Invalid invite") [invUnsolved] :=
  c4_notfound_uniform regAccept 0 "e2" ⟨none⟩ [] [invUnsolved] "t9" "t1"
    invUnsolved (by decide) (by decide) (by decide)

/-- C5: on a solved token, two successive `submitRsvp` calls each succeed,
and after the second one the stored row carries exactly the second
payload — `rsvp_data` is a full overwrite holding only `p2`, with
`rsvp_status` re-derived from `p2` alone — while `rsvp_at` is advanced to
the time of each call (`n1` after the first, `n2` after the second). -/
theorem c5_rsvp_overwrite (derive : Payload → String) (n1 n2 : Nat)
    (t : String) (p1 p2 : Payload) (store : Store) (inv : Invite)
    (hfind : getInvite store t = some inv) (hs : inv.puzzle_solved = true) :
    (submitRsvp derive n1 t p1 store).1 = .success
    ∧ getInvite (submitRsvp derive n1 t p1 store).2 t
        = some { inv with rsvp_data := some p1,
                          rsvp_status := some (derive p1), rsvp_at := some n1 }
    ∧ (submitRsvp derive n2 t p2 (submitRsvp derive n1 t p1 store).2).1 = .success
    ∧ getInvite (submitRsvp derive n2 t p2 (submitRsvp derive n1 t p1 store).2).2 t
        = some { inv with rsvp_data := some p2,
                          rsvp_status := some (derive p2), rsvp_at := some n2 } := by
  have h1 := submitRsvp_solved derive n1 p1 hfind hs
  have htok := getInvite_token hfind
  have hg1 : getInvite (submitRsvp derive n1 t p1 store).2 t
      = some { inv with rsvp_data := some p1,
                        rsvp_status := some (derive p1), rsvp_at := some n1 } := by
    rw [h1]
    dsimp only
    rw [getInvite_upsertRsvp, hfind]
    simp
  have h2 := submitRsvp_solved derive n2 p2 hg1 (by simpa using hs)
  refine ⟨by rw [h1], hg1, by rw [h2], ?_⟩
  rw [h2]
  dsimp only
  rw [getInvite_upsertRsvp, hg1]
  simp [htok]

/-- Witness for C5: two concrete RSVP writes on the solved invite; the
final row shows only the second payload and the second timestamp. -/
theorem c5_witness :
    (submitRsvp deriveConst 11 "t1" "yes" [invSolved]).1 = .success
    ∧ getInvite (submitRsvp deriveConst 11 "t1" "yes" [invSolved]).2 "t1"
        = some { invSolved with rsvp_data := some "yes",
                                rsvp_status := some (deriveConst "yes"), rsvp_at := some 11 }
    ∧ (submitRsvp deriveConst 12 "t1" "no"
        (submitRsvp deriveConst 11 "t1" "yes" [invSolved]).2).1 = .success
    ∧ getInvite (submitRsvp deriveConst 12 "t1" "no"
        (submitRsvp deriveConst 11 "t1" "yes" [invSolved]).2).2 "t1"
        = some { invSolved with rsvp_data := some "no",
                                rsvp_status := some (deriveConst "no"), rsvp_at := some 12 } :=
  c5_rsvp_overwrite deriveConst 11 12 "t1" "yes" "no" [invSolved] invSolved
    (by decide) rfl

/-- C6: `GET invite state` returns exactly the four-field view
`{guest_name, event_slug, puzzle_solved, has_rsvp}` with
`has_rsvp = (rsvp_status ≠ unset)`; the response of two lookups whose
invites agree on those derived data — however much their `rsvp_data` or
their particular non-unset `rsvp_status` differ — is identical, so the
output never carries the literal content of `rsvp_data` or the
`rsvp_status` value. -/
theorem c6_invite_view (store : Store) (t : String) (inv : Invite)
    (hfind : getInvite store t = some inv) :
    getInviteState store t
        = .ok ⟨inv.guest_name, inv.event_slug, inv.puzzle_solved,
               inv.rsvp_status.isSome⟩
    ∧ ∀ (s2 : Store) (t2 : String) (inv2 : Invite),
        getInvite s2 t2 = some inv2 →
        inv2.guest_name = inv.guest_name →
        inv2.event_slug = inv.event_slug →
        inv2.puzzle_solved = inv.puzzle_solved →
        inv2.rsvp_status.isSome = inv.rsvp_status.isSome →
        getInviteState s2 t2 = getInviteState store t := by
  have hv : getInviteState store t
      = .ok ⟨inv.guest_name, inv.event_slug, inv.puzzle_solved,
             inv.rsvp_status.isSome⟩ := by
    unfold getInviteState
    rw [hfind]
  refine ⟨hv, fun s2 t2 inv2 hfind2 hn he hp hr => ?_⟩
  have hv2 : getInviteState s2 t2
      = .ok ⟨inv2.guest_name, inv2.event_slug, inv2.puzzle_solved,
             inv2.rsvp_status.isSome⟩ := by
    unfold getInviteState
    rw [hfind2]
  rw [hv, hv2, hn, he, hp, hr]

/-- Witness for C6: two invites that differ in their stored RSVP payload
and in which non-unset status they hold (`accepted` vs `declined`) are
indistinguishable through the invite-state endpoint. -/
theorem c6_witness :
    getInviteState [⟨"t1", "e1", "G", true, some "accepted", some "pizza", 0,
        some 3, some 4⟩] "t1"
      = .ok ⟨"G", "e1", true, true⟩
    ∧ getInviteState [⟨"t2", "e1", "G", true, some "declined", some "salad", 0,
        some 3, some 6⟩] "t2"
      = getInviteState [⟨"t1", "e1", "G", true, some "accepted", some "pizza", 0,
          some 3, some 4⟩] "t1" := by
  have h := c6_invite_view
    [⟨"t1", "e1", "G", true, some "accepted", some "pizza", 0, some 3, some 4⟩]
    "t1" ⟨"t1", "e1", "G", true, some "accepted", some "pizza", 0, some 3, some 4⟩
    (by decide)
  exact ⟨h.1, h.2 [⟨"t2", "e1", "G", true, some "declined", some "salad", 0,
    some 3, some 6⟩] "t2"
    ⟨"t2", "e1", "G", true, some "declined", some "salad", 0, some 3, some 6⟩
    (by decide) rfl rfl rfl rfl⟩

/-- C7 fails on the code as claimed: the handler has no try/catch, so a
throwing verifier's exception escapes `attemptSolve` instead of being
turned into `{solved: false}`.  Concretely, with an unsolved `e1` invite
and the registry whose `e1` verifier throws `"boom"`, the handler run is
a `threw` outcome, not the `{solved: false}` response the claim
demands. -/
theorem c7_counterexample :
    attemptSolve regThrow 0 "e1" "t1" ⟨none⟩ [invUnsolved]
        = .threw "boom" [invUnsolved]
    ∧ attemptSolve regThrow 0 "e1" "t1" ⟨none⟩ [invUnsolved]
        ≠ .responded (.ok false) [invUnsolved] := by
  refine ⟨by decide, by decide⟩

/-- C7 amended: a throwing verifier makes the exception propagate out of
the handler (no `{solved: false}` response is produced), but the gate
does fail closed on state — the invite comes back exactly as it was,
never marked solved. -/
theorem c7_throwing_verifier {σ : Type}
    (reg : String → Option (σ → Except String Bool)) (now : Nat)
    (slug t : String) (sub : σ) (store : Store) (inv : Invite)
    (v : σ → Except String Bool) (e : String)
    (hfind : getInvite store t = some inv) (hm : inv.event_slug = slug)
    (hu : inv.puzzle_solved = false) (hr : reg slug = some v)
    (hc : v sub = .error e) :
    attemptSolve reg now slug t sub store = .threw e store
    ∧ getInvite (outcomeStore (attemptSolve reg now slug t sub store)) t
        = some inv := by
  have h := attemptSolve_throws now hfind hm hu hr hc
  exact ⟨h, by rw [h]; exact hfind⟩

/-- Witness for the amended C7: the concrete throwing run escapes with
`"boom"` and leaves the unsolved invite untouched. -/
theorem c7_witness :
    attemptSolve regThrow 2 "e1" "t1" ⟨none⟩ [invUnsolved]
        = .threw "boom" [invUnsolved]
    ∧ getInvite
        (outcomeStore (attemptSolve regThrow 2 "e1" "t1" ⟨none⟩ [invUnsolved]))
        "t1" = some invUnsolved :=
  c7_throwing_verifier regThrow 2 "e1" "t1" ⟨none⟩ [invUnsolved] invUnsolved
    (fun _ => Except.error "boom") "boom" (by decide) rfl rfl rfl rfl

/-- The HTTP status carried by a verify response, if it is an error. -/
def statusOf : VerifyResult → Option Nat
  | .ok _ => none
  | .err s _ => some s

/-- C8 fails on the code as claimed: the missing-verifier error and the
invalid-invite error share the 404 status but carry different JSON
bodies ("Unknown event" vs "Invalid invite"), so the caller can tell
them apart — and thereby learn that the event does not exist. -/
theorem c8_counterexample :
    attemptSolve regEmpty 0 "e1" "t1" ⟨none⟩ [invUnsolved]
        = .responded (.err 404 "Unknown event") [invUnsolved]
    ∧ attemptSolve regEmpty 0 "e1" "t9" ⟨none⟩ [invUnsolved]
        = .responded (.err 404 "Invalid invite") [invUnsolved]
    ∧ (VerifyResult.err 404 "Unknown event")
        ≠ (VerifyResult.err 404 "Invalid invite") := by
  refine ⟨by decide, by decide, by decide⟩

/-- C8 amended: a valid, unsolved token of an event with no registered
verifier fails with the `UnknownEvent` error, surfaced with the same 404
not-found status code as the invalid-invite `NotFound` error, but with a
distinguishable body ("Unknown event" instead of "Invalid invite"). -/
theorem c8_unknown_event {σ : Type}
    (reg : String → Option (σ → Except String Bool)) (now : Nat)
    (slug t : String) (sub : σ) (store : Store) (inv : Invite)
    (hfind : getInvite store t = some inv) (hm : inv.event_slug = slug)
    (hu : inv.puzzle_solved = false) (hr : reg slug = none) :
    attemptSolve reg now slug t sub store
        = .responded (.err 404 "Unknown event") store
    ∧ statusOf (.err 404 "Unknown event") = statusOf (.err 404 "Invalid invite") :=
  ⟨attemptSolve_no_verifier now sub hfind hm hu hr, rfl⟩

/-- Witness for the amended C8: the concrete no-verifier run produces the
distinct 404 "Unknown event" response. -/
theorem c8_witness :
    attemptSolve regEmpty 4 "e1" "t1" ⟨none⟩ [invUnsolved]
        = .responded (.err 404 "Unknown event") [invUnsolved]
    ∧ statusOf (.err 404 "Unknown event") = statusOf (.err 404 "Invalid invite") :=
  c8_unknown_event regEmpty 4 "e1" "t1" ⟨none⟩ [invUnsolved] invUnsolved
    (by decide) rfl rfl rfl

/-- What the implemented server may answer: the health JSON, a static
asset from `dist/`, or the catch-all `dist/index.html`. -/
inductive ServerResponse where
  | health (status timestamp : String)
  | staticAsset (path : String)
  | indexHtml
deriving Repr, DecidableEq

/-- The implemented server `src/server/index.js`:

```js
app.get("/api/health", (_req, res) => {
  res.json({ status: "ok", timestamp: new Date().toISOString() });
});
if (process.env.NODE_ENV === "production") {
  app.use(express.static(distPath));
  app.get("*", (_req, res) => { res.sendFile(join(distPath, "index.html")); });
}
```

`nowIso` stands for `new Date().toISOString()` — the clock's current
value, already serialized by the Date library in ISO-8601 format.
`distHas` says which paths exist as built assets under `dist/`; `body`
is the request body, which no handler reads.  The function is pure:
the server holds no other state. -/
def serverHandle (production : Bool) (distHas : String → Bool)
    (nowIso : String) (method path body : String) : Option ServerResponse :=
  if method = "GET" ∧ path = "/api/health" then some (.health "ok" nowIso)
  else if production = true ∧ method = "GET" then
    if distHas path then some (.staticAsset path) else some .indexHtml
  else none

/-- C9: `GET /api/health` responds with `status = "ok"` and
`timestamp` equal to the clock's ISO-8601 serialization of the current
time; the response is the same for every request body (the handler reads
nothing from the request) and the handler touches no other state; and it
is the only dynamic operation — every other method/path combination
yields a response that does not depend on the clock at all. -/
theorem c9_health (production : Bool) (distHas : String → Bool)
    (nowIso nowIso2 method path body body2 : String) :
    serverHandle production distHas nowIso "GET" "/api/health" body
        = some (.health "ok" nowIso)
    ∧ serverHandle production distHas nowIso "GET" "/api/health" body
        = serverHandle production distHas nowIso "GET" "/api/health" body2
    ∧ (¬(method = "GET" ∧ path = "/api/health") →
        serverHandle production distHas nowIso method path body
          = serverHandle production distHas nowIso2 method path body) := by
  refine ⟨?_, ?_, ?_⟩
  · unfold serverHandle
    rw [if_pos ⟨rfl, rfl⟩]
  · unfold serverHandle
    rw [if_pos ⟨rfl, rfl⟩]
  · intro h
    unfold serverHandle
    rw [if_neg h, if_neg h]

/-- Witness for C9: a concrete health request in production mode, its
body-independence, and a non-health path whose answer is the same under
two different clock readings. -/
theorem c9_witness :
    serverHandle true (fun _ => false) "2026-10-12T00:00:00.000Z"
        "GET" "/api/health" "" = some (.health "ok" "2026-10-12T00:00:00.000Z")
    ∧ serverHandle true (fun _ => false) "2026-10-12T00:00:00.000Z"
        "GET" "/api/health" ""
      = serverHandle true (fun _ => false) "2026-10-12T00:00:00.000Z"
          "GET" "/api/health" "ignored"
    ∧ serverHandle true (fun _ => false) "2026-10-12T00:00:00.000Z"
        "GET" "/invite/t1" ""
      = serverHandle true (fun _ => false) "2027-01-01T00:00:00.000Z"
          "GET" "/invite/t1" "" := by
  have h := c9_health true (fun _ => false) "2026-10-12T00:00:00.000Z"
    "2027-01-01T00:00:00.000Z" "GET" "/invite/t1" "" "ignored"
  exact ⟨h.1, h.2.1, h.2.2 (by decide)⟩

/-- C10: the example verifier accepts exactly the submissions whose
`answer` string, trimmed and lower-cased, is "the stars align at
midnight"; a submission whose `answer` is absent/null/undefined makes it
return `false` (the optional chaining is total there), so such a
submission can neither solve the puzzle nor crash the gate. -/
theorem c10_example_verifier (s : Submission) :
    (verify s = true
      ↔ ∃ a, s.answer = some a
          ∧ jsToLowerCase (jsTrim a) = "the stars align at midnight")
    ∧ (s.answer = none → verify s = false) := by
  constructor
  · unfold verify
    cases h : s.answer with
    | none => simp [h]
    | some a => simp [h]
  · intro h
    unfold verify
    rw [h]
    rfl

/-- Witness for C10: the canonical answer (with extra whitespace and
capitals) verifies; the empty submission does not. -/
theorem c10_witness :
    verify ⟨some "  The Stars Align at Midnight "⟩ = true
    ∧ verify ⟨none⟩ = false :=
  ⟨(c10_example_verifier ⟨some "  The Stars Align at Midnight "⟩).1.mpr
      ⟨"  The Stars Align at Midnight ", rfl, by decide⟩,
   (c10_example_verifier ⟨none⟩).2 rfl⟩

end PuzzleRsvp
